import Mathlib

/-
Verification of the Intellifi face-uniqueness engine.

Shallow embedding of the repository's uniqueness/validation/similarity/
store-client logic.  JavaScript numbers are modelled as real numbers,
JS arrays as lists, thrown exceptions as `Except` errors, and the
external collaborators (contract, IPFS gateways, comparison API) as
explicit environment parameters describing what each call would return.
-/

open scoped Classical

noncomputable section

/-- Accumulation loop `dotProduct += e1[i] * e2[i]` shared by both
cosine-similarity implementations.  The loops run only after a length
check, so the truncating base case is never reached on live inputs. -/
def dot : List ℝ → List ℝ → ℝ
  | x :: a, y :: b => x * y + dot a b
  | _, _ => 0

/-- Accumulation loop `mag += e[i] * e[i]` computing the squared magnitude. -/
def sumSq : List ℝ → ℝ
  | [] => 0
  | x :: a => x * x + sumSq a

theorem sumSq_nonneg (l : List ℝ) : 0 ≤ sumSq l := by
  induction l with
  | nil => simp [sumSq]
  | cons x a ih => simp only [sumSq]; nlinarith [mul_self_nonneg x]

theorem dot_nil_right (a : List ℝ) : dot a [] = 0 := by
  cases a <;> rfl

/-- Cauchy-Schwarz inequality for the list dot product, proved by direct
induction (no length hypothesis is needed: `dot` truncates at the shorter
list while `sumSq` only grows). -/
theorem dot_sq_le_sumSq_mul_sumSq (a : List ℝ) :
    ∀ b : List ℝ, dot a b ^ 2 ≤ sumSq a * sumSq b := by
  induction a with
  | nil =>
    intro b
    simp [dot, sumSq]
  | cons x a ih =>
    intro b
    cases b with
    | nil =>
      rw [dot_nil_right]
      simp only [sumSq]
      nlinarith [sumSq_nonneg a, mul_self_nonneg x, sumSq_nonneg ([] : List ℝ)]
    | cons y b =>
      have h := ih b
      have ha := sumSq_nonneg a
      have hb := sumSq_nonneg b
      simp only [dot, sumSq]
      rcases eq_or_lt_of_le hb with hb0 | hb0
      · have hd : dot a b = 0 := by
          have : dot a b ^ 2 ≤ 0 := by rw [← hb0] at h; nlinarith
          nlinarith [sq_nonneg (dot a b), sq_abs (dot a b), abs_nonneg (dot a b)]
        rw [hd, ← hb0]
        nlinarith [mul_self_nonneg y, mul_self_nonneg x, sq_nonneg (x * y)]
      · nlinarith [sq_nonneg (x * sumSq b - y * dot a b),
          sq_nonneg (y * sumSq a - x * dot a b),
          mul_pos hb0 hb0, mul_nonneg ha hb,
          mul_nonneg (mul_self_nonneg y) (sub_nonneg.mpr h),
          mul_nonneg hb (sub_nonneg.mpr h)]

theorem abs_dot_le_sqrt_mul_sqrt (a b : List ℝ) :
    |dot a b| ≤ Real.sqrt (sumSq a) * Real.sqrt (sumSq b) := by
  have h := Real.sqrt_le_sqrt (dot_sq_le_sumSq_mul_sumSq a b)
  rwa [Real.sqrt_sq_eq_abs, Real.sqrt_mul (sumSq_nonneg a)] at h

namespace FaceApiService

/-- Translation of `FaceApiService.compareFaceEmbeddings`
(src/src/services/FaceApiService.ts, lines 75-111): length mismatch throws
`Embeddings must have the same dimensions`; zero magnitude returns 0;
otherwise the cosine similarity `dotProduct / (mag1 * mag2)` is returned. -/
def compareFaceEmbeddings (embedding1 embedding2 : List ℝ) : Except String ℝ :=
  if embedding1.length ≠ embedding2.length then
    .error "Embeddings must have the same dimensions"
  else
    let dotProduct := dot embedding1 embedding2
    let mag1 := Real.sqrt (sumSq embedding1)
    let mag2 := Real.sqrt (sumSq embedding2)
    if mag1 = 0 ∨ mag2 = 0 then
      .ok 0
    else
      .ok (dotProduct / (mag1 * mag2))

end FaceApiService

namespace IpfsUtils

/-- Translation of `calculateCosineSimilarity` (src/utils/ipfsUtils.ts,
part_002 lines 138-192).  The `Array.from` conversions are identities in
the model, and the `identicalCount` / high-similarity checks only log
(no behavioral effect), so the computation is: length mismatch throws the
same message, zero magnitude returns 0, otherwise `dot / (mag1 * mag2)`. -/
def calculateCosineSimilarity (embedding1 embedding2 : List ℝ) : Except String ℝ :=
  if embedding1.length ≠ embedding2.length then
    .error "Embeddings must have the same dimensions"
  else
    let dotProduct := dot embedding1 embedding2
    let mag1 := Real.sqrt (sumSq embedding1)
    let mag2 := Real.sqrt (sumSq embedding2)
    if mag1 = 0 ∨ mag2 = 0 then
      .ok 0
    else
      .ok (dotProduct / (mag1 * mag2))

end IpfsUtils

/-- Helper: any score the similarity engine actually returns lies in the
closed interval from -1 to 1. -/
theorem compare_ok_bounds (a b : List ℝ) (s : ℝ)
    (h : FaceApiService.compareFaceEmbeddings a b = .ok s) : -1 ≤ s ∧ s ≤ 1 := by
  unfold FaceApiService.compareFaceEmbeddings at h
  by_cases hlen : a.length ≠ b.length
  case pos => rw [if_pos hlen] at h; exact absurd h (by simp)
  rw [if_neg hlen] at h
  dsimp only at h
  by_cases hzero : Real.sqrt (sumSq a) = 0 ∨ Real.sqrt (sumSq b) = 0
  · rw [if_pos hzero] at h
    simp only [Except.ok.injEq] at h
    constructor <;> rw [← h] <;> norm_num
  · rw [if_neg hzero] at h
    simp only [Except.ok.injEq] at h
    push_neg at hzero
    have h1 : 0 < Real.sqrt (sumSq a) :=
      lt_of_le_of_ne (Real.sqrt_nonneg _) (Ne.symm hzero.1)
    have h2 : 0 < Real.sqrt (sumSq b) :=
      lt_of_le_of_ne (Real.sqrt_nonneg _) (Ne.symm hzero.2)
    have hm : 0 < Real.sqrt (sumSq a) * Real.sqrt (sumSq b) := mul_pos h1 h2
    have habs := abs_dot_le_sqrt_mul_sqrt a b
    rw [abs_le] at habs
    constructor
    · rw [← h, le_div_iff hm]; nlinarith [habs.1]
    · rw [← h, div_le_one hm]; exact habs.2

/-- Loop counting entries strictly equal to 0 (the `zeroCount` accumulator
used by `isValidEmbedding` and by the crude pre-check in
`checkFaceUniqueness`). -/
def countZeros : List ℝ → ℕ
  | [] => 0
  | v :: rest => (if v = 0 then 1 else 0) + countZeros rest

namespace FaceProcessing

/-- Largest finite JS double (`Number.MAX_VALUE`), the initial value of the
`min` accumulator in `isValidEmbedding`. -/
def NumberMaxValue : ℝ := (2 ^ 53 - 1) * 2 ^ 971

/-- Smallest positive JS double (`Number.MIN_VALUE`), the initial value of
the `max` accumulator in `isValidEmbedding`. -/
def NumberMinValue : ℝ := 1 / 2 ^ 1074

/-- The `nonZeroValues` array collected by the validation loop of
`isValidEmbedding` (part_006 lines 88-98). -/
def nonZeroValues (l : List ℝ) : List ℝ := l.filter (fun v => v ≠ 0)

/-- The `nonZeroMean` statistic (part_006 lines 105-107). -/
def nonZeroMean (l : List ℝ) : ℝ :=
  if 0 < (nonZeroValues l).length then
    (nonZeroValues l).sum / (nonZeroValues l).length
  else 0

/-- The `nonZeroStdDev` statistic (part_006 lines 108-110): population
standard deviation of the non-zero entries, 0 when there are none. -/
def nonZeroStdDev (l : List ℝ) : ℝ :=
  if 0 < (nonZeroValues l).length then
    Real.sqrt (((nonZeroValues l).map (fun v => (v - nonZeroMean l) ^ 2)).sum
      / (nonZeroValues l).length)
  else 0

/-- The `min` accumulator over non-zero entries, initialized to
`Number.MAX_VALUE` (part_006 lines 86, 94). -/
def minNonZero (l : List ℝ) : ℝ := (nonZeroValues l).foldl min NumberMaxValue

/-- The `max` accumulator over non-zero entries, initialized to
`Number.MIN_VALUE` (part_006 lines 87, 95). -/
def maxNonZero (l : List ℝ) : ℝ := (nonZeroValues l).foldl max NumberMinValue

/-- Check 1 of `isValidEmbedding` (part_006 line 126):
`(embedding.length - zeroCount) >= embedding.length * 0.05`. -/
def hasMinimumNonZeroValues (l : List ℝ) : Prop :=
  (l.length : ℝ) * 0.05 ≤ (l.length : ℝ) - countZeros l

/-- Check 2 of `isValidEmbedding` (part_006 line 127):
`nonZeroStdDev > 0.001`. -/
def hasReasonableNonZeroSpread (l : List ℝ) : Prop :=
  0.001 < nonZeroStdDev l

/-- Check 3 of `isValidEmbedding` (part_006 line 128):
`Math.max(Math.abs(min), Math.abs(max)) > 0.01`. -/
def hasReasonableMagnitude (l : List ℝ) : Prop :=
  0.01 < max |minNonZero l| |maxNonZero l|

/-- Translation of `isValidEmbedding` (part_006 lines 68-138): the boolean
conjunction of the three checks.  The function returns only this boolean;
no per-check reason is part of its result. -/
def isValidEmbedding (l : List ℝ) : Prop :=
  hasMinimumNonZeroValues l ∧ hasReasonableNonZeroSpread l ∧ hasReasonableMagnitude l

/-- Payload built by `useFaceProcessing.uploadToIPFS` (part_006 lines
242-246): the embedding plus a fresh timestamp and a version tag. -/
structure UploadPayload where
  embedding : List ℝ
  timestamp : ℕ
  version : String

/-- Fixed generic error message surfaced by `uploadToIPFS` when validation
fails (part_006 line 233). -/
def invalidEmbeddingMessage : String :=
  "Invalid face embedding. Please capture a new image with better lighting and make sure your face is clearly visible."

/-- Translation of the validation gate of `useFaceProcessing.uploadToIPFS`
(part_006 lines 219-249): the embedding is validated with
`isValidEmbedding` before any upload; an invalid embedding aborts with the
fixed generic message and nothing is uploaded. -/
def uploadEmbedding (e : List ℝ) (now : ℕ) : Except String UploadPayload :=
  if isValidEmbedding e then .ok ⟨e, now, "1.0"⟩
  else .error invalidEmbeddingMessage

/-- The three checks of `isValidEmbedding`, in source order. -/
inductive VCheck
  | nonZeroCount
  | spread
  | magnitude
deriving DecidableEq

/-- The first check of `isValidEmbedding` that fails on a given embedding,
in the order the source computes them. -/
def firstFailingCheck (l : List ℝ) : Option VCheck :=
  if ¬ hasMinimumNonZeroValues l then some .nonZeroCount
  else if ¬ hasReasonableNonZeroSpread l then some .spread
  else if ¬ hasReasonableMagnitude l then some .magnitude
  else none

/-- The only reason string the repository ever surfaces for a validation
failure: the single generic message of `uploadToIPFS`, independent of which
check failed. -/
def validationReason (l : List ℝ) : Option String :=
  if isValidEmbedding l then none else some invalidEmbeddingMessage

end FaceProcessing

namespace SpecValidator

/-- Spec-side restatement (section 4.1 wording): the count of entries not
equal to exactly 0. -/
def nonZeroCount (l : List ℝ) : ℕ := (l.filter (fun v => v ≠ 0)).length

/-- Spec-side restatement: population mean of a list of values. -/
def popMean (xs : List ℝ) : ℝ := xs.sum / xs.length

/-- Spec-side restatement: population standard deviation of a list of
values (with the 0-divided-by-0 convention this is 0 on the empty list). -/
def popStdDev (xs : List ℝ) : ℝ :=
  Real.sqrt ((xs.map (fun v => (v - popMean xs) ^ 2)).sum / xs.length)

/-- Spec-side restatement of the section 4.1 validator: non-zero ratio at
least 0.05 of the dimension, population standard deviation of the non-zero
entries strictly above 0.001, and some non-zero entry of absolute value
strictly above 0.01 (for a finite non-empty set, the latter is exactly
`max(measuring abs of min and max) > 0.01`). -/
def validSpec (l : List ℝ) : Prop :=
  0.05 * (l.length : ℝ) ≤ (nonZeroCount l : ℝ) ∧
  0.001 < popStdDev (l.filter (fun v => v ≠ 0)) ∧
  ∃ v ∈ l.filter (fun v => v ≠ 0), 0.01 < |v|

end SpecValidator

namespace FaceProcessing

theorem countZeros_add_nonZero_length (l : List ℝ) :
    countZeros l + (nonZeroValues l).length = l.length := by
  induction l with
  | nil => rfl
  | cons v rest ih =>
    by_cases hv : v = 0
    · have hc : countZeros (v :: rest) = 1 + countZeros rest := by
        simp only [countZeros]; rw [if_pos hv]
      have hf : nonZeroValues (v :: rest) = nonZeroValues rest := by
        unfold nonZeroValues; rw [List.filter_cons, if_neg (by simp [hv])]
      rw [hc, hf, List.length_cons]; omega
    · have hc : countZeros (v :: rest) = countZeros rest := by
        simp only [countZeros]; rw [if_neg hv, zero_add]
      have hf : nonZeroValues (v :: rest) = v :: nonZeroValues rest := by
        unfold nonZeroValues; rw [List.filter_cons, if_pos (by simp [hv])]
      rw [hc, hf, List.length_cons, List.length_cons]; omega

theorem foldl_min_le_init (l : List ℝ) : ∀ init : ℝ, l.foldl min init ≤ init := by
  induction l with
  | nil => intro init; simp
  | cons x xs ih =>
    intro init
    simp only [List.foldl_cons]
    exact le_trans (ih (min init x)) (min_le_left _ _)

theorem foldl_min_le_mem (l : List ℝ) : ∀ init : ℝ, ∀ v ∈ l, l.foldl min init ≤ v := by
  induction l with
  | nil => intro _ v hv; cases hv
  | cons x xs ih =>
    intro init v hv
    simp only [List.foldl_cons]
    rcases List.mem_cons.mp hv with rfl | hv
    · exact le_trans (foldl_min_le_init xs (min init v)) (min_le_right _ _)
    · exact ih (min init x) v hv

theorem foldl_min_eq_init_or_mem (l : List ℝ) :
    ∀ init : ℝ, l.foldl min init = init ∨ l.foldl min init ∈ l := by
  induction l with
  | nil => intro init; left; rfl
  | cons x xs ih =>
    intro init
    simp only [List.foldl_cons]
    rcases ih (min init x) with h | h
    · rcases min_choice init x with hc | hc
      · left; rw [h, hc]
      · right; rw [h, hc]; exact List.mem_cons_self _ _
    · right; exact List.mem_cons_of_mem _ h

theorem init_le_foldl_max (l : List ℝ) : ∀ init : ℝ, init ≤ l.foldl max init := by
  induction l with
  | nil => intro init; simp
  | cons x xs ih =>
    intro init
    simp only [List.foldl_cons]
    exact le_trans (le_max_left _ _) (ih (max init x))

theorem mem_le_foldl_max (l : List ℝ) : ∀ init : ℝ, ∀ v ∈ l, v ≤ l.foldl max init := by
  induction l with
  | nil => intro _ v hv; cases hv
  | cons x xs ih =>
    intro init v hv
    simp only [List.foldl_cons]
    rcases List.mem_cons.mp hv with rfl | hv
    · exact le_trans (le_max_right _ _) (init_le_foldl_max xs (max init v))
    · exact ih (max init x) v hv

theorem foldl_max_eq_init_or_mem (l : List ℝ) :
    ∀ init : ℝ, l.foldl max init = init ∨ l.foldl max init ∈ l := by
  induction l with
  | nil => intro init; left; rfl
  | cons x xs ih =>
    intro init
    simp only [List.foldl_cons]
    rcases ih (max init x) with h | h
    · rcases max_choice init x with hc | hc
      · left; rw [h, hc]
      · right; rw [h, hc]; exact List.mem_cons_self _ _
    · right; exact List.mem_cons_of_mem _ h

theorem numberMinValue_pos : 0 < NumberMinValue := by
  unfold NumberMinValue; positivity

theorem numberMinValue_lt_hundredth : NumberMinValue < 0.01 := by
  unfold NumberMinValue
  rw [div_lt_iff (by positivity)]
  norm_num

theorem numberMaxValue_gt_hundredth : (0.01 : ℝ) < NumberMaxValue := by
  unfold NumberMaxValue
  norm_num

theorem hasReasonableMagnitude_iff (l : List ℝ) (hne : nonZeroValues l ≠ []) :
    hasReasonableMagnitude l ↔ ∃ v ∈ nonZeroValues l, 0.01 < |v| := by
  unfold hasReasonableMagnitude minNonZero maxNonZero
  constructor
  · intro h
    rcases lt_max_iff.mp h with hm | hM
    · rcases foldl_min_eq_init_or_mem (nonZeroValues l) NumberMaxValue with he | he
      · obtain ⟨v, hv⟩ := List.exists_mem_of_ne_nil _ hne
        refine ⟨v, hv, ?_⟩
        have h1 : List.foldl min NumberMaxValue (nonZeroValues l) ≤ v :=
          foldl_min_le_mem _ _ v hv
        rw [he] at h1
        have h2 : (0.01 : ℝ) < v := lt_of_lt_of_le numberMaxValue_gt_hundredth h1
        rw [abs_of_pos (lt_trans (by norm_num) h2)]
        exact h2
      · exact ⟨_, he, hm⟩
    · have hpos : 0 < List.foldl max NumberMinValue (nonZeroValues l) :=
        lt_of_lt_of_le numberMinValue_pos (init_le_foldl_max _ _)
      rw [abs_of_pos hpos] at hM
      rcases foldl_max_eq_init_or_mem (nonZeroValues l) NumberMinValue with he | he
      · rw [he] at hM
        exact absurd hM (not_lt.mpr (le_of_lt numberMinValue_lt_hundredth))
      · refine ⟨_, he, ?_⟩
        rw [abs_of_pos (lt_trans (by norm_num) hM)]
        exact hM
  · rintro ⟨v, hv, hvabs⟩
    rcases lt_abs.mp hvabs with hpos | hneg
    · apply lt_max_iff.mpr; right
      have h1 : v ≤ List.foldl max NumberMinValue (nonZeroValues l) :=
        mem_le_foldl_max _ _ v hv
      have h2 : (0.01 : ℝ) < List.foldl max NumberMinValue (nonZeroValues l) :=
        lt_of_lt_of_le hpos h1
      rw [abs_of_pos (lt_trans (by norm_num) h2)]
      exact h2
    · apply lt_max_iff.mpr; left
      have h1 : List.foldl min NumberMaxValue (nonZeroValues l) ≤ v :=
        foldl_min_le_mem _ _ v hv
      have h2 : List.foldl min NumberMaxValue (nonZeroValues l) < -0.01 :=
        lt_of_le_of_lt h1 (by linarith)
      rw [abs_of_neg (lt_trans h2 (by norm_num))]
      linarith

theorem nonZeroStdDev_eq_popStdDev (l : List ℝ) :
    nonZeroStdDev l = SpecValidator.popStdDev (nonZeroValues l) := by
  by_cases h : 0 < (nonZeroValues l).length
  · have hm : nonZeroMean l = SpecValidator.popMean (nonZeroValues l) := by
      unfold nonZeroMean SpecValidator.popMean
      rw [if_pos h]
    unfold nonZeroStdDev SpecValidator.popStdDev
    rw [if_pos h, hm]
  · have he : nonZeroValues l = [] := List.length_eq_zero.mp (by omega)
    unfold nonZeroStdDev SpecValidator.popStdDev
    rw [if_neg h, he]
    simp [Real.sqrt_zero]

theorem isValidEmbedding_iff_validSpec (l : List ℝ) :
    isValidEmbedding l ↔ SpecValidator.validSpec l := by
  have hcount := countZeros_add_nonZero_length l
  have heq : (l.length : ℝ) - (countZeros l : ℝ) = ((nonZeroValues l).length : ℝ) := by
    have h2 : (l.length : ℝ) = (countZeros l : ℝ) + ((nonZeroValues l).length : ℝ) := by
      exact_mod_cast hcount.symm
    linarith
  have hnzc : (SpecValidator.nonZeroCount l : ℝ) = ((nonZeroValues l).length : ℝ) := rfl
  have hratio : hasMinimumNonZeroValues l ↔
      0.05 * (l.length : ℝ) ≤ (SpecValidator.nonZeroCount l : ℝ) := by
    unfold hasMinimumNonZeroValues
    rw [hnzc]
    constructor <;> intro h <;> linarith
  have hfilter : l.filter (fun v => v ≠ 0) = nonZeroValues l := rfl
  have hspread : hasReasonableNonZeroSpread l ↔
      0.001 < SpecValidator.popStdDev (l.filter (fun v => v ≠ 0)) := by
    unfold hasReasonableNonZeroSpread
    rw [nonZeroStdDev_eq_popStdDev, hfilter]
  by_cases hne : nonZeroValues l = []
  · constructor
    · rintro ⟨-, h2, -⟩
      exfalso
      have hz : nonZeroStdDev l = 0 := by
        unfold nonZeroStdDev
        rw [if_neg (by rw [hne]; simp)]
      unfold hasReasonableNonZeroSpread at h2
      rw [hz] at h2
      norm_num at h2
    · rintro ⟨-, -, h3⟩
      exfalso
      obtain ⟨v, hv, -⟩ := h3
      rw [hfilter, hne] at hv
      cases hv
  · unfold isValidEmbedding SpecValidator.validSpec
    rw [hratio, hspread, hasReasonableMagnitude_iff l hne, hfilter]

theorem countZeros_replicate_zero (n : ℕ) : countZeros (List.replicate n 0) = n := by
  induction n with
  | zero => rfl
  | succ n ih => simp [List.replicate_succ, countZeros, ih]; omega

theorem not_isValidEmbedding_replicate_zero (n : ℕ) :
    ¬ isValidEmbedding (List.replicate (n + 1) 0) := by
  rintro ⟨h1, -, -⟩
  unfold hasMinimumNonZeroValues at h1
  rw [countZeros_replicate_zero, List.length_replicate] at h1
  push_cast at h1
  linarith

end FaceProcessing

/-- The `uniquenessStatus` values set through `setUniquenessStatus` by both
versions of `checkFaceUniqueness` (`checking` is the transient state). -/
inductive UniquenessStatus
  | unique
  | duplicate
  | checking
  | error
deriving DecidableEq

namespace UseContractInteraction

/-- Similarity threshold of src/src/hooks/useContractInteraction.ts (line 10). -/
def SIMILARITY_THRESHOLD : ℝ := 0.70

/-- Data stored at an IPFS hash as read back by `retrieveFromIPFS` (the
`IPFSData` interface); the `data && data.embedding` guard means the
embedding field may be absent. -/
structure IPFSData where
  embedding : Option (List ℝ)

/-- On-chain registration fields the check reads (`registrants(i)` and
`getRegistration`). -/
structure RegistryEntry where
  address : String
  ipfsHash : String

/-- One iteration of the comparison loop as seen from outside: what the
per-index contract reads return (`none` models a thrown, per-entry-caught
error) and what `retrieveFromIPFS` would return for that entry (`none`
models its `Failed to retrieve from IPFS` throw). -/
structure LoopEntry where
  regRead : Option RegistryEntry
  fetched : Option IPFSData

/-- Result of a completed `checkFaceUniqueness` run: the returned boolean
and the final `uniquenessStatus`, instrumented with the number of
`retrieveFromIPFS` calls made, the number of cosine comparisons actually
computed, and the running maximum over computed similarities (0 when no
comparison was computed). -/
structure RunStats where
  result : Bool
  status : UniquenessStatus
  fetches : ℕ
  comparisons : ℕ
  bestScore : ℝ

/-- Environment of one `checkFaceUniqueness` call: the connected wallet,
the candidate embedding, the just-uploaded IPFS hash, whether the contract
reads (`getContract` and `totalRegistrants`) succeed, and the per-index
registry data (the registrant count is the length of this list). -/
structure Env where
  wallet : Option String
  candidate : List ℝ
  currentIpfsHash : Option String
  contractOk : Bool
  registry : List LoopEntry

/-- The comparison loop of `checkFaceUniqueness`
(useContractInteraction.ts lines 182-252): skip entries with per-entry read
errors, empty IPFS hashes, the caller's own wallet, or the just-uploaded
hash; skip failed fetches, missing embedding fields, stored embeddings
failing the crude zero check, and length mismatches; otherwise compute the
cosine similarity and return a duplicate verdict on the first strictly
greater-than-threshold score. -/
def loop (cand : List ℝ) (w : String) (cur : Option String) :
    List LoopEntry → ℕ → ℕ → ℝ → RunStats
  | [], f, c, b => ⟨true, .unique, f, c, b⟩
  | e :: rest, f, c, b =>
    match e.regRead with
    | none => loop cand w cur rest f c b
    | some reg =>
      if reg.ipfsHash = "" ∨ reg.address.toLower = w.toLower ∨ cur = some reg.ipfsHash then
        loop cand w cur rest f c b
      else
        match e.fetched with
        | none => loop cand w cur rest (f + 1) c b
        | some data =>
          match data.embedding with
          | none => loop cand w cur rest (f + 1) c b
          | some stored =>
            if 50 < countZeros (stored.take 100) then
              loop cand w cur rest (f + 1) c b
            else if cand.length ≠ stored.length then
              loop cand w cur rest (f + 1) c b
            else
              match IpfsUtils.calculateCosineSimilarity cand stored with
              | .error _ => loop cand w cur rest (f + 1) (c + 1) b
              | .ok similarity =>
                if SIMILARITY_THRESHOLD < similarity then
                  ⟨false, .duplicate, f + 1, c + 1, max b similarity⟩
                else
                  loop cand w cur rest (f + 1) (c + 1) (max b similarity)

/-- Outcome of `checkFaceUniqueness`: the outer catch rethrows (after
setting status `error`), every other path returns a boolean. -/
inductive Outcome
  | thrown (status : UniquenessStatus)
  | returned (r : RunStats)

/-- Translation of `checkFaceUniqueness` (useContractInteraction.ts lines
121-270).  A missing wallet throws (status `error`, rethrown by the outer
handler).  The crude embedding check (lines 131-145) counts zeros among
the first `min(100, length)` entries and returns false with status `error`
when more than 50 are zero.  A contract-interaction failure hits the
fallback (lines 257-264) that returns true with status `unique`.  A zero
registrant count returns true with status `unique` immediately (lines
174-179).  Otherwise the comparison loop decides. -/
def checkFaceUniqueness (env : Env) : Outcome :=
  match env.wallet with
  | none => .thrown .error
  | some w =>
    if 50 < countZeros (env.candidate.take 100) then
      .returned ⟨false, .error, 0, 0, 0⟩
    else if env.contractOk = false then
      .returned ⟨true, .unique, 0, 0, 0⟩
    else if env.registry.length = 0 then
      .returned ⟨true, .unique, 0, 0, 0⟩
    else
      .returned (loop env.candidate w env.currentIpfsHash env.registry 0 0 0)

end UseContractInteraction

namespace Part007

/-- Similarity threshold of the part_007 version of
useContractInteraction.ts (line 12). -/
def SIMILARITY_THRESHOLD : ℝ := 0.60

/-- Response of `FaceApiService.compareFaceWithIpfs` as consumed by the
part_007 loop. -/
structure CompareOutcome where
  success : Bool
  similarity : Option ℝ
  error : Option String

/-- On-chain registration fields the check reads. -/
structure RegistryEntry where
  address : String
  ipfsHash : String

/-- One iteration of the part_007 loop: per-index contract reads (`none`
models a thrown, per-entry-caught error) and the comparison API outcome
(`none` models a throw caught by the per-entry handler). -/
structure LoopEntry where
  regRead : Option RegistryEntry
  cmp : Option CompareOutcome

/-- Result of a `checkFaceUniqueness` (part_007) run: returned boolean,
final `uniquenessStatus`, and the number of comparison API calls made. -/
structure Result where
  result : Bool
  status : UniquenessStatus
  apiCalls : ℕ

/-- Environment of one part_007 `checkFaceUniqueness` call; `countRead`
records whether `totalRegistrants()` succeeded (part_007 lines 192-202),
and the registrant count is the length of `entries`. -/
structure Env where
  wallet : Option String
  candidate : List ℝ
  currentIpfsHash : Option String
  contractOk : Bool
  countRead : Bool
  entries : List LoopEntry

/-- JS `error.includes(pat)` for the non-empty patterns tested at part_007
lines 264-266. -/
def includesSub (s pat : String) : Bool := 2 ≤ (s.splitOn pat).length

/-- The IPFS-gateway-error test of part_007 lines 264-266. -/
def ipfsErrorLike (e : String) : Bool :=
  includesSub e "IPFS" || includesSub e "gateway" || includesSub e "403"

/-- The comparison loop of part_007 `checkFaceUniqueness` (lines 230-285):
skip read errors and the usual skip conditions; call the comparison API;
an unsuccessful response with an IPFS-like error message is skipped; any
other response contributes `similarity || 0`, and the first strictly
greater-than-threshold score returns the duplicate verdict. -/
def loop (w : String) (cur : Option String) : List LoopEntry → ℕ → Result
  | [], k => ⟨true, .unique, k⟩
  | e :: rest, k =>
    match e.regRead with
    | none => loop w cur rest k
    | some reg =>
      if reg.ipfsHash = "" ∨ reg.address.toLower = w.toLower ∨ cur = some reg.ipfsHash then
        loop w cur rest k
      else
        match e.cmp with
        | none => loop w cur rest (k + 1)
        | some c =>
          if c.success = false ∧ (∃ m, c.error = some m ∧ ipfsErrorLike m = true) then
            loop w cur rest (k + 1)
          else
            if SIMILARITY_THRESHOLD < c.similarity.getD 0 then ⟨false, .duplicate, k + 1⟩
            else loop w cur rest (k + 1)

/-- Translation of part_007 `checkFaceUniqueness` (lines 157-303).  A
missing wallet or a `getContract` failure is caught and returns false with
status `error`; the crude zero-count check returns false with status
`error`; a failed `totalRegistrants()` read is caught and returns true
with status `unique` (lines 196-202); a zero count returns true with
status `unique`; otherwise the loop decides. -/
def checkFaceUniqueness (env : Env) : Result :=
  match env.wallet with
  | none => ⟨false, .error, 0⟩
  | some w =>
    if 50 < countZeros (env.candidate.take 100) then ⟨false, .error, 0⟩
    else if env.contractOk = false then ⟨false, .error, 0⟩
    else if env.countRead = false then ⟨true, .unique, 0⟩
    else if env.entries.length = 0 then ⟨true, .unique, 0⟩
    else loop w env.currentIpfsHash env.entries 0

end Part007

namespace BackendServer

/-- Similarity threshold of the Bun verification server (part_000 line 16). -/
def SIMILARITY_THRESHOLD : ℝ := 0.40

/-- A registered face as enumerated by `getRegisteredFaces`. -/
structure Face where
  address : String
  ipfsHash : String

/-- The running best match of `handleFaceVerification` (part_000 lines
193-196), initialized to an empty address and similarity 0. -/
structure BestMatch where
  address : String
  similarity : ℝ

/-- The comparison loop of `handleFaceVerification` (part_000 lines
198-260): faces without an IPFS hash are skipped; a failed or timed-out
API request (`none`) is skipped; otherwise the response similarity (or 0
when the field is absent) replaces the best match iff strictly greater. -/
def bestMatchFold (api : Face → Option (Option ℝ)) :
    List Face → BestMatch → BestMatch
  | [], best => best
  | f :: rest, best =>
    if f.ipfsHash = "" then bestMatchFold api rest best
    else
      match api f with
      | none => bestMatchFold api rest best
      | some simField =>
        if best.similarity < simField.getD 0 then
          bestMatchFold api rest ⟨f.address, simField.getD 0⟩
        else
          bestMatchFold api rest best

/-- The best match computed by `handleFaceVerification` over the
registered faces. -/
def bestMatch (faces : List Face) (api : Face → Option (Option ℝ)) : BestMatch :=
  bestMatchFold api faces ⟨"", 0⟩

/-- The verdict of `handleFaceVerification` (part_000 line 263):
`isFaceRegistered = bestMatch.similarity >= SIMILARITY_THRESHOLD`, an
inclusive comparison. -/
def isFaceRegistered (faces : List Face) (api : Face → Option (Option ℝ)) : Prop :=
  SIMILARITY_THRESHOLD ≤ (bestMatch faces api).similarity

end BackendServer

namespace FaceApiServiceV01

/-- Ordered gateway list (part_000 lines 19-24 and part_001 lines 79-84). -/
def IPFS_GATEWAYS : List String :=
  ["https://gateway.pinata.cloud/ipfs/",
   "https://ipfs.io/ipfs/",
   "https://cloudflare-ipfs.com/ipfs/",
   "https://dweb.link/ipfs/"]

/-- Per-gateway axios timeout in milliseconds (part_001 line 379). -/
def GATEWAY_TIMEOUT_MS : ℕ := 5000

/-- The gateway loop of `FaceApiService.fetchFromIPFS` (part_001 lines
372-390): try each gateway URL in order; a thrown, timed-out or non-200
request (`none`) moves on to the next gateway; the first successful
response is returned. -/
def tryGateways {T : Type} (request : String → Option T) (cleanHash : String) :
    List String → Option T
  | [] => none
  | g :: rest =>
    match request (g ++ cleanHash) with
    | some data => some data
    | none => tryGateways request cleanHash rest

/-- Translation of `FaceApiService.fetchFromIPFS` (part_001 lines 368-395):
clean the hash, walk the static gateway list, and return `null` (`none`)
only after every gateway has failed. -/
def fetchFromIPFS {T : Type} (request : String → Option T) (ipfsHash : String) : Option T :=
  tryGateways request (ipfsHash.replace "ipfs://" "") IPFS_GATEWAYS

end FaceApiServiceV01

namespace IpfsUtils

/-- The single read gateway used by `retrieveFromIPFS` (part_002 line 86). -/
def PINATA_GATEWAY : String := "https://gateway.pinata.cloud/ipfs/"

/-- Translation of `retrieveFromIPFS` (src/utils/ipfsUtils.ts, part_002
lines 83-92): one axios request against the Pinata gateway only; any
failure throws `Failed to retrieve from IPFS`.  No other gateway is
tried. -/
def retrieveFromIPFS {T : Type} (request : String → Option T) (ipfsHash : String) :
    Except String T :=
  match request (PINATA_GATEWAY ++ ipfsHash) with
  | some data => .ok data
  | none => .error "Failed to retrieve from IPFS"

end IpfsUtils

namespace FaceRegistration

/-- The on-chain `Registration` struct (part_005 lines 6-12).  A mapping
slot that has never been written is modelled as `none` (the Solidity
zero-struct sentinel the contract detects via `wallet == address(0)`). -/
structure Registration where
  wallet : String
  publicKey : String
  faceHash : String
  ipfsHash : String
  timestamp : ℕ
deriving DecidableEq

/-- The `SpendNote` struct (part_005 lines 15-20). -/
structure SpendNote where
  noteHash : String
  amount : ℕ
  spent : Bool
  timestamp : ℕ
deriving DecidableEq

/-- Contract storage of `FaceRegistration` (part_005 lines 22-38). -/
structure State where
  registrations : String → Option Registration
  registrants : List String
  merkleRoot : String
  spentNullifiers : String → Bool
  spendNotes : String → Option SpendNote
  spendNoteHashes : List String

/-- Deployment state: empty mappings and arrays. -/
def initialState : State where
  registrations := fun _ => none
  registrants := []
  merkleRoot := ""
  spentNullifiers := fun _ => false
  spendNotes := fun _ => none
  spendNoteHashes := []

/-- The exposed mutating entry points, with `msg.sender`, `msg.value` and
`block.timestamp` made explicit call data; `transferOk` is whether the
low-level ETH send inside `spendNote` succeeds. -/
inductive Op
  | register (sender faceHash ipfsHash publicKey : String) (now : ℕ)
  | createSpendNote (sender noteHash : String) (value : ℕ) (now : ℕ)
  | updateMerkleRoot (newRoot : String)
  | spendNote (noteHash nullifier recipient : String) (transferOk : Bool)

/-- 0.1 ether in wei (the required `createSpendNote` value). -/
def tenthEther : ℕ := 100000000000000000

/-- Transition function for `FaceRegistration` (part_005 lines 75-182):
`.error msg` models a revert with that reason (state unchanged), `.ok`
returns the post-state. -/
def apply (s : State) : Op → Except String State
  | .register sender faceHash ipfsHash publicKey now =>
    if (s.registrations sender).isSome then .error "Already registered"
    else .ok { s with
      registrations := fun a =>
        if a = sender then some ⟨sender, publicKey, faceHash, ipfsHash, now⟩
        else s.registrations a,
      registrants := s.registrants ++ [sender] }
  | .createSpendNote sender noteHash value now =>
    if (s.registrations sender).isNone then .error "Not registered"
    else if value ≠ tenthEther then .error "Must send exactly 0.1 ETH"
    else if (s.spendNotes noteHash).isSome then .error "Note already exists"
    else .ok { s with
      spendNotes := fun h =>
        if h = noteHash then some ⟨noteHash, value, false, now⟩ else s.spendNotes h,
      spendNoteHashes := s.spendNoteHashes ++ [noteHash] }
  | .updateMerkleRoot newRoot => .ok { s with merkleRoot := newRoot }
  | .spendNote noteHash nullifier _recipient transferOk =>
    match s.spendNotes noteHash with
    | none => .error "Note does not exist"
    | some note =>
      if note.spent then .error "Note already spent"
      else if s.spentNullifiers nullifier then .error "Nullifier already used"
      else if transferOk = false then .error "Transfer failed"
      else .ok { s with
        spendNotes := fun h =>
          if h = noteHash then some { note with spent := true } else s.spendNotes h,
        spentNullifiers := fun x => if x = nullifier then true else s.spentNullifiers x }

/-- States reachable from deployment by successful transactions. -/
inductive Reachable : State → Prop
  | init : Reachable initialState
  | step {s s' : State} (op : Op) : Reachable s → apply s op = .ok s' → Reachable s'

/-- Registry invariant: no wallet appears twice in `registrants`, and
membership there coincides with having a stored registration. -/
def Inv (s : State) : Prop :=
  s.registrants.Nodup ∧ ∀ a, a ∈ s.registrants ↔ (s.registrations a).isSome

end FaceRegistration

namespace FaceRegistrar

/-- The on-chain `Registration` struct of the ZK variant (part_004 lines
11-17), identical to the `FaceRegistration` one. -/
structure Registration where
  wallet : String
  publicKey : String
  faceHash : String
  ipfsHash : String
  timestamp : ℕ
deriving DecidableEq

/-- Contract storage of `FaceRegistrar` (part_004 lines 7-23): the
verifier contract is modelled by its observable behavior, a function from
proof bytes and public inputs to a boolean. -/
structure State where
  zkVerifier : List ℕ → List String → Bool
  registrations : String → Option Registration
  registrants : List String

/-- Deployment state for a given verifier contract. -/
def initialState (v : List ℕ → List String → Bool) : State where
  zkVerifier := v
  registrations := fun _ => none
  registrants := []

/-- The exposed mutating entry points of `FaceRegistrar`. -/
inductive Op
  | register (sender faceHash ipfsHash publicKey : String) (zkProof : List ℕ) (now : ℕ)
  | updateZkVerifier (newVerifier : List ℕ → List String → Bool)

/-- Transition function for `FaceRegistrar` (part_004 lines 38-92).  Note
the order of the requires in `register`: the ZK proof is checked first
(revert `Invalid ZK proof`), the re-registration guard second (revert
`Already registered`). -/
def apply (s : State) : Op → Except String State
  | .register sender faceHash ipfsHash publicKey zkProof now =>
    if s.zkVerifier zkProof [faceHash] = false then .error "Invalid ZK proof"
    else if (s.registrations sender).isSome then .error "Already registered"
    else .ok { s with
      registrations := fun a =>
        if a = sender then some ⟨sender, publicKey, faceHash, ipfsHash, now⟩
        else s.registrations a,
      registrants := s.registrants ++ [sender] }
  | .updateZkVerifier v => .ok { s with zkVerifier := v }

/-- The placeholder `ZKVerifier.verifyProof` (part_004 lines 115-128):
accepts iff the proof bytes and the public input list are both
non-empty. -/
def zkVerifierPlaceholder (proof : List ℕ) (publicInputs : List String) : Bool :=
  decide (0 < proof.length) && decide (0 < publicInputs.length)

/-- States reachable from deployment by successful transactions. -/
inductive Reachable : State → Prop
  | init (v : List ℕ → List String → Bool) : Reachable (initialState v)
  | step {s s' : State} (op : Op) : Reachable s → apply s op = .ok s' → Reachable s'

/-- Registry invariant for the ZK variant. -/
def Inv (s : State) : Prop :=
  s.registrants.Nodup ∧ ∀ a, a ∈ s.registrants ↔ (s.registrations a).isSome

end FaceRegistrar

namespace FaceRegistration

theorem registrations_persist {s s' : State} {op : Op} {a : String} {r : Registration}
    (h : apply s op = .ok s') (hr : s.registrations a = some r) :
    s'.registrations a = some r := by
  cases op with
  | register sender faceHash ipfsHash publicKey now =>
    simp only [apply] at h
    split_ifs at h with hreg
    simp only [Except.ok.injEq] at h
    subst h
    by_cases ha : a = sender
    · subst ha
      rw [hr] at hreg
      simp at hreg
    · simpa [ha] using hr
  | createSpendNote sender noteHash value now =>
    simp only [apply] at h
    split_ifs at h
    simp only [Except.ok.injEq] at h
    subst h
    exact hr
  | updateMerkleRoot newRoot =>
    simp only [apply, Except.ok.injEq] at h
    subst h
    exact hr
  | spendNote noteHash nullifier recipient transferOk =>
    simp only [apply] at h
    cases hsn : s.spendNotes noteHash with
    | none => rw [hsn] at h; exact absurd h (by simp)
    | some note =>
      simp only [hsn] at h
      by_cases h1 : note.spent = true
      · rw [if_pos h1] at h; exact absurd h (by simp)
      · rw [if_neg h1] at h
        by_cases h2 : s.spentNullifiers nullifier = true
        · rw [if_pos h2] at h; exact absurd h (by simp)
        · rw [if_neg h2] at h
          by_cases h3 : transferOk = false
          · rw [if_pos h3] at h; exact absurd h (by simp)
          · rw [if_neg h3] at h
            rw [Except.ok.injEq] at h
            subst h
            exact hr

theorem inv_step {s s' : State} (op : Op) (hInv : Inv s) (h : apply s op = .ok s') :
    Inv s' := by
  obtain ⟨hnd, hmem⟩ := hInv
  cases op with
  | register sender faceHash ipfsHash publicKey now =>
    simp only [apply] at h
    split_ifs at h with hreg
    simp only [Except.ok.injEq] at h
    subst h
    have hnotin : sender ∉ s.registrants := by
      intro hin
      exact hreg ((hmem sender).mp hin)
    constructor
    · rw [List.nodup_append]
      refine ⟨hnd, List.nodup_singleton _, ?_⟩
      intro x hx hx'
      rw [List.mem_singleton] at hx'
      subst hx'
      exact hnotin hx
    · intro a
      simp only [List.mem_append, List.mem_singleton]
      by_cases ha : a = sender
      · subst ha
        simp
      · simp only [ha, or_false, if_neg ha]
        exact hmem a
  | createSpendNote sender noteHash value now =>
    simp only [apply] at h
    split_ifs at h
    simp only [Except.ok.injEq] at h
    subst h
    exact ⟨hnd, hmem⟩
  | updateMerkleRoot newRoot =>
    simp only [apply, Except.ok.injEq] at h
    subst h
    exact ⟨hnd, hmem⟩
  | spendNote noteHash nullifier recipient transferOk =>
    simp only [apply] at h
    cases hsn : s.spendNotes noteHash with
    | none => rw [hsn] at h; exact absurd h (by simp)
    | some note =>
      simp only [hsn] at h
      by_cases h1 : note.spent = true
      · rw [if_pos h1] at h; exact absurd h (by simp)
      · rw [if_neg h1] at h
        by_cases h2 : s.spentNullifiers nullifier = true
        · rw [if_pos h2] at h; exact absurd h (by simp)
        · rw [if_neg h2] at h
          by_cases h3 : transferOk = false
          · rw [if_pos h3] at h; exact absurd h (by simp)
          · rw [if_neg h3] at h
            rw [Except.ok.injEq] at h
            subst h
            exact ⟨hnd, hmem⟩

theorem reachable_inv {s : State} (h : Reachable s) : Inv s := by
  induction h with
  | init =>
    constructor
    · exact List.nodup_nil
    · intro a
      simp [initialState]
  | step op _ happly ih => exact inv_step op ih happly

end FaceRegistration

namespace FaceRegistrar

theorem registrations_persist_zk {s s' : State} {op : Op} {a : String} {r : Registration}
    (h : apply s op = .ok s') (hr : s.registrations a = some r) :
    s'.registrations a = some r := by
  cases op with
  | register sender faceHash ipfsHash publicKey zkProof now =>
    simp only [apply] at h
    split_ifs at h with hzk hreg
    simp only [Except.ok.injEq] at h
    subst h
    by_cases ha : a = sender
    · subst ha
      rw [hr] at hreg
      simp at hreg
    · simpa [ha] using hr
  | updateZkVerifier v =>
    simp only [apply, Except.ok.injEq] at h
    subst h
    exact hr

theorem inv_step_zk {s s' : State} (op : Op) (hInv : Inv s) (h : apply s op = .ok s') :
    Inv s' := by
  obtain ⟨hnd, hmem⟩ := hInv
  cases op with
  | register sender faceHash ipfsHash publicKey zkProof now =>
    simp only [apply] at h
    split_ifs at h with hzk hreg
    simp only [Except.ok.injEq] at h
    subst h
    have hnotin : sender ∉ s.registrants := by
      intro hin
      exact hreg ((hmem sender).mp hin)
    constructor
    · rw [List.nodup_append]
      refine ⟨hnd, List.nodup_singleton _, ?_⟩
      intro x hx hx'
      rw [List.mem_singleton] at hx'
      subst hx'
      exact hnotin hx
    · intro a
      simp only [List.mem_append, List.mem_singleton]
      by_cases ha : a = sender
      · subst ha
        simp
      · simp only [ha, or_false, if_neg ha]
        exact hmem a
  | updateZkVerifier v =>
    simp only [apply, Except.ok.injEq] at h
    subst h
    exact ⟨hnd, hmem⟩

theorem reachable_inv_zk {s : State} (h : Reachable s) : Inv s := by
  induction h with
  | init v =>
    constructor
    · exact List.nodup_nil
    · intro a
      simp [initialState]
  | step op _ happly ih => exact inv_step_zk op ih happly

end FaceRegistrar

theorem dot_cons (x y : ℝ) (a b : List ℝ) : dot (x :: a) (y :: b) = x * y + dot a b := rfl

theorem dot_nil_left (b : List ℝ) : dot [] b = 0 := rfl

theorem sumSq_cons (x : ℝ) (a : List ℝ) : sumSq (x :: a) = x * x + sumSq a := rfl

theorem sumSq_nil : sumSq ([] : List ℝ) = 0 := rfl

/-- Helper: a returned score forces equal lengths. -/
theorem calc_ok_length {a b : List ℝ} {s : ℝ}
    (h : IpfsUtils.calculateCosineSimilarity a b = .ok s) : a.length = b.length := by
  by_contra hne
  unfold IpfsUtils.calculateCosineSimilarity at h
  rw [if_pos hne] at h
  exact Except.noConfusion h

/-- Helper: concrete evaluation, cosine similarity of `[1,1]` with itself
is 1. -/
theorem calc_ones_eval :
    IpfsUtils.calculateCosineSimilarity [(1 : ℝ), 1] [1, 1] = .ok 1 := by
  unfold IpfsUtils.calculateCosineSimilarity
  rw [if_neg (by norm_num)]
  dsimp only
  have hs : sumSq [(1 : ℝ), 1] = 2 := by norm_num [sumSq_cons, sumSq_nil]
  rw [hs]
  have hsqrt : Real.sqrt 2 ≠ 0 := by positivity
  rw [if_neg (by push_neg; exact ⟨hsqrt, hsqrt⟩)]
  have hd : dot [(1 : ℝ), 1] [1, 1] = 2 := by norm_num [dot_cons, dot_nil_left]
  rw [hd, Except.ok.injEq, Real.mul_self_sqrt (by norm_num : (0 : ℝ) ≤ 2)]
  norm_num

/-- Helper: concrete evaluation, the candidate `[1,0,0,0]` scores exactly
7/10 against the stored embedding `[7,7,1,1]`. -/
theorem calc_tie_eval :
    IpfsUtils.calculateCosineSimilarity [(1 : ℝ), 0, 0, 0] [7, 7, 1, 1] = .ok (7 / 10) := by
  unfold IpfsUtils.calculateCosineSimilarity
  rw [if_neg (by norm_num)]
  dsimp only
  have hs1 : sumSq [(1 : ℝ), 0, 0, 0] = 1 := by norm_num [sumSq_cons, sumSq_nil]
  have hs2 : sumSq [(7 : ℝ), 7, 1, 1] = 100 := by norm_num [sumSq_cons, sumSq_nil]
  rw [hs1, hs2, Real.sqrt_one]
  have h100 : Real.sqrt 100 = 10 := by
    rw [show (100 : ℝ) = 10 ^ 2 by norm_num, Real.sqrt_sq (by norm_num : (0 : ℝ) ≤ 10)]
  rw [h100]
  rw [if_neg (by norm_num)]
  have hd : dot [(1 : ℝ), 0, 0, 0] [7, 7, 1, 1] = 7 := by
    norm_num [dot_cons, dot_nil_left]
  rw [hd, Except.ok.injEq]
  norm_num

/-- C9: the two near-duplicate cosine-similarity implementations,
`FaceApiService.compareFaceEmbeddings` and
`ipfsUtils.calculateCosineSimilarity`, are extensionally equal: they agree
on every pair of inputs; on a length mismatch both produce the same thrown
error (never a score), and whenever either vector has zero magnitude both
return the score 0. -/
theorem claim_C9_cosine_implementations_equal :
    (∀ e1 e2 : List ℝ, IpfsUtils.calculateCosineSimilarity e1 e2 =
        FaceApiService.compareFaceEmbeddings e1 e2) ∧
    (∀ e1 e2 : List ℝ, e1.length ≠ e2.length →
        IpfsUtils.calculateCosineSimilarity e1 e2 =
          .error "Embeddings must have the same dimensions") ∧
    (∀ e1 e2 : List ℝ, e1.length = e2.length → sumSq e1 = 0 ∨ sumSq e2 = 0 →
        IpfsUtils.calculateCosineSimilarity e1 e2 = .ok 0) := by
  refine ⟨fun e1 e2 => rfl, ?_, ?_⟩
  · intro e1 e2 hlen
    unfold IpfsUtils.calculateCosineSimilarity
    rw [if_pos hlen]
  · intro e1 e2 hlen hz
    unfold IpfsUtils.calculateCosineSimilarity
    rw [if_neg (fun hc => hc hlen)]
    dsimp only
    have hz' : Real.sqrt (sumSq e1) = 0 ∨ Real.sqrt (sumSq e2) = 0 := by
      cases hz with
      | inl h => exact Or.inl (by rw [h, Real.sqrt_zero])
      | inr h => exact Or.inr (by rw [h, Real.sqrt_zero])
    rw [if_pos hz']

/-- Witness for C9 at concrete inputs. -/
theorem claim_C9_cosine_implementations_equal_witness :
    IpfsUtils.calculateCosineSimilarity [(1 : ℝ)] [1, 2] =
      .error "Embeddings must have the same dimensions" ∧
    IpfsUtils.calculateCosineSimilarity [(0 : ℝ), 0] [0, 0] = .ok 0 :=
  ⟨claim_C9_cosine_implementations_equal.2.1 [1] [1, 2] (by norm_num),
   claim_C9_cosine_implementations_equal.2.2 [0, 0] [0, 0] (by norm_num)
     (Or.inl (by norm_num [sumSq_cons, sumSq_nil]))⟩

/-- C2 counterexample: comparing the equal-length embeddings `[1]` and
`[-1]` returns the score -1, which lies outside the claimed interval
[0,1] (the cited cost model says SimilarityScore is in [0,1]). -/
theorem claim_C2_counterexample :
    FaceApiService.compareFaceEmbeddings [(1 : ℝ)] [(-1 : ℝ)] = .ok (-1) ∧
    ¬ (0 ≤ (-1 : ℝ)) := by
  constructor
  · unfold FaceApiService.compareFaceEmbeddings
    rw [if_neg (by norm_num)]
    dsimp only
    have hs1 : sumSq [(1 : ℝ)] = 1 := by norm_num [sumSq_cons, sumSq_nil]
    have hs2 : sumSq [(-1 : ℝ)] = 1 := by norm_num [sumSq_cons, sumSq_nil]
    rw [hs1, hs2, Real.sqrt_one]
    rw [if_neg (by norm_num)]
    have hd : dot [(1 : ℝ)] [(-1 : ℝ)] = -1 := by norm_num [dot_cons, dot_nil_left]
    rw [hd, Except.ok.injEq]
    norm_num
  · norm_num

/-- C2 (amended): for every pair of embeddings, any numeric score either
similarity implementation returns lies in the closed interval [-1,1]
(scores can be negative, so the claimed lower bound 0 is wrong; the upper
bound 1 and the lower bound -1 follow from Cauchy-Schwarz). -/
theorem claim_C2_amended_similarity_bounds :
    ∀ (a b : List ℝ) (s : ℝ),
      (FaceApiService.compareFaceEmbeddings a b = .ok s → -1 ≤ s ∧ s ≤ 1) ∧
      (IpfsUtils.calculateCosineSimilarity a b = .ok s → -1 ≤ s ∧ s ≤ 1) := by
  intro a b s
  exact ⟨compare_ok_bounds a b s, fun h => compare_ok_bounds a b s h⟩

/-- Witness for C2 (amended) at a concrete input. -/
theorem claim_C2_amended_similarity_bounds_witness :
    -1 ≤ (1 : ℝ) ∧ (1 : ℝ) ≤ 1 :=
  (claim_C2_amended_similarity_bounds [1, 1] [1, 1] 1).2 calc_ones_eval

/-- C5 (amended): the similarity engine itself never returns a numeric
score for unequal lengths -- both implementations throw the
dimension-mismatch error -- but the claim that the mismatch is never
handled by skipping fails: `checkFaceUniqueness` guards its calls with a
length pre-check and silently skips mismatched entries (see the
counterexample), so the error is avoided there rather than surfaced. -/
theorem claim_C5_amended_dimension_mismatch_throws :
    ∀ a b : List ℝ, a.length ≠ b.length →
      FaceApiService.compareFaceEmbeddings a b =
        .error "Embeddings must have the same dimensions" ∧
      IpfsUtils.calculateCosineSimilarity a b =
        .error "Embeddings must have the same dimensions" ∧
      ∀ s : ℝ, FaceApiService.compareFaceEmbeddings a b ≠ .ok s := by
  intro a b h
  have he : FaceApiService.compareFaceEmbeddings a b =
      .error "Embeddings must have the same dimensions" := by
    unfold FaceApiService.compareFaceEmbeddings
    rw [if_pos h]
  refine ⟨he, he, ?_⟩
  intro s hc
  rw [he] at hc
  exact Except.noConfusion hc

/-- Witness for C5 (amended) at a concrete input. -/
theorem claim_C5_amended_dimension_mismatch_throws_witness :
    FaceApiService.compareFaceEmbeddings [(1 : ℝ)] [1, 2] =
      .error "Embeddings must have the same dimensions" :=
  (claim_C5_amended_dimension_mismatch_throws [1] [1, 2] (by norm_num)).1

/-- C5 counterexample: a run of `checkFaceUniqueness` against one registry
entry whose stored embedding has a different length (candidate length 2,
stored length 3): the entry is silently skipped -- no comparison is
performed, no error is surfaced, and the check completes with the unique
verdict -- contradicting the claim that a mismatch is always surfaced and
never handled by skipping the comparison. -/
theorem claim_C5_counterexample :
    UseContractInteraction.checkFaceUniqueness
      { wallet := some "0xme", candidate := [1, 1], currentIpfsHash := none,
        contractOk := true,
        registry := [{ regRead := some { address := "0xother", ipfsHash := "QmStored" },
                       fetched := some { embedding := some [1, 1, 1] } }] } =
      .returned { result := true, status := .unique, fetches := 1,
                  comparisons := 0, bestScore := 0 } := by
  unfold UseContractInteraction.checkFaceUniqueness
  dsimp only
  have hcz : countZeros (([1, 1] : List ℝ).take 100) = 0 := by
    rw [List.take_of_length_le (by norm_num)]
    norm_num [countZeros]
  rw [if_neg (by rw [hcz]; norm_num)]
  rw [if_neg (by norm_num)]
  rw [if_neg (by norm_num)]
  simp only [UseContractInteraction.loop]
  rw [if_neg (by simp only [String.toLower, String.map_eq]; decide)]
  have hcz3 : countZeros (([1, 1, 1] : List ℝ).take 100) = 0 := by
    rw [List.take_of_length_le (by norm_num)]
    norm_num [countZeros]
  rw [if_neg (by rw [hcz3]; norm_num)]
  rw [if_pos (by norm_num)]

/-- Helper: the first validator check passes on `[1,1]`. -/
theorem hasMin_ones : FaceProcessing.hasMinimumNonZeroValues [(1 : ℝ), 1] := by
  unfold FaceProcessing.hasMinimumNonZeroValues
  norm_num [countZeros]

/-- Helper: the spread check fails on `[1,1]` (its non-zero entries are
constant, so their population standard deviation is 0). -/
theorem not_spread_ones : ¬ FaceProcessing.hasReasonableNonZeroSpread [(1 : ℝ), 1] := by
  have hnz : FaceProcessing.nonZeroValues [(1 : ℝ), 1] = [1, 1] := by
    unfold FaceProcessing.nonZeroValues
    simp only [List.filter_cons, List.filter_nil, decide_eq_true_eq]
    norm_num
  have hmean : FaceProcessing.nonZeroMean [(1 : ℝ), 1] = 1 := by
    unfold FaceProcessing.nonZeroMean
    rw [hnz]
    norm_num [List.sum_cons, List.sum_nil]
  have hstd : FaceProcessing.nonZeroStdDev [(1 : ℝ), 1] = 0 := by
    unfold FaceProcessing.nonZeroStdDev
    rw [hnz, hmean, if_pos (by norm_num)]
    norm_num [List.map_cons, List.map_nil, List.sum_cons, List.sum_nil, Real.sqrt_zero]
  intro h2
  unfold FaceProcessing.hasReasonableNonZeroSpread at h2
  rw [hstd] at h2
  norm_num at h2

/-- Helper: the embedding `[1,1]` fails the full validator. -/
theorem not_valid_ones : ¬ FaceProcessing.isValidEmbedding [(1 : ℝ), 1] := by
  rintro ⟨-, h2, -⟩
  exact not_spread_ones h2

/-- C3 counterexample: the candidate `[1,1]` is invalid for the full
section-4.1 validator (`isValidEmbedding` rejects it), yet
`checkFaceUniqueness` on that candidate does not fail fast with an
invalid-embedding outcome: its crude zero-count pre-check passes, a cosine
comparison against a registry entry is actually performed
(`comparisons = 1`), and the run ends in a duplicate verdict. -/
theorem claim_C3_counterexample :
    ¬ FaceProcessing.isValidEmbedding [(1 : ℝ), 1] ∧
    UseContractInteraction.checkFaceUniqueness
      { wallet := some "0xme", candidate := [1, 1], currentIpfsHash := none,
        contractOk := true,
        registry := [{ regRead := some { address := "0xother", ipfsHash := "QmS" },
                       fetched := some { embedding := some [1, 1] } }] } =
      .returned { result := false, status := .duplicate, fetches := 1,
                  comparisons := 1, bestScore := 1 } := by
  refine ⟨not_valid_ones, ?_⟩
  unfold UseContractInteraction.checkFaceUniqueness
  dsimp only
  have hcz : countZeros (([1, 1] : List ℝ).take 100) = 0 := by
    rw [List.take_of_length_le (by norm_num)]
    norm_num [countZeros]
  rw [if_neg (by rw [hcz]; norm_num), if_neg (by norm_num), if_neg (by norm_num)]
  simp only [UseContractInteraction.loop]
  rw [if_neg (by simp only [String.toLower, String.map_eq]; decide)]
  rw [if_neg (by rw [hcz]; norm_num)]
  rw [if_neg (by norm_num)]
  simp only [calc_ones_eval]
  rw [if_pos (by norm_num [UseContractInteraction.SIMILARITY_THRESHOLD])]
  norm_num

/-- C3 (amended): `checkFaceUniqueness` validates the candidate only with
a crude zero-count over the first `min(100, D)` entries -- when that
check fails it returns false with status `error` before any fetch or
comparison -- while the full section-4.1 validator `isValidEmbedding`
runs only in `uploadToIPFS`, which aborts before any upload with the
generic invalid-embedding message. -/
theorem claim_C3_amended_crude_validation_fails_fast :
    (∀ (env : UseContractInteraction.Env) (w : String), env.wallet = some w →
      50 < countZeros (env.candidate.take 100) →
      UseContractInteraction.checkFaceUniqueness env =
        .returned { result := false, status := .error, fetches := 0,
                    comparisons := 0, bestScore := 0 }) ∧
    (∀ (e : List ℝ) (now : ℕ), ¬ FaceProcessing.isValidEmbedding e →
      FaceProcessing.uploadEmbedding e now =
        .error FaceProcessing.invalidEmbeddingMessage) := by
  constructor
  · intro env w hw hcrude
    unfold UseContractInteraction.checkFaceUniqueness
    rw [hw]
    dsimp only
    rw [if_pos hcrude]
  · intro e now hinv
    unfold FaceProcessing.uploadEmbedding
    rw [if_neg hinv]

/-- Witness for C3 (amended) at concrete inputs. -/
theorem claim_C3_amended_crude_validation_fails_fast_witness :
    UseContractInteraction.checkFaceUniqueness
      { wallet := some "0xme", candidate := List.replicate 60 0,
        currentIpfsHash := none, contractOk := true, registry := [] } =
      .returned { result := false, status := .error, fetches := 0,
                  comparisons := 0, bestScore := 0 } ∧
    FaceProcessing.uploadEmbedding (List.replicate 60 0) 0 =
      .error FaceProcessing.invalidEmbeddingMessage :=
  ⟨claim_C3_amended_crude_validation_fails_fast.1 _ "0xme" rfl (by
      show 50 < countZeros ((List.replicate 60 (0 : ℝ)).take 100)
      rw [List.take_of_length_le (by simp)]
      rw [FaceProcessing.countZeros_replicate_zero]
      norm_num),
   claim_C3_amended_crude_validation_fails_fast.2 _ 0
     (FaceProcessing.not_isValidEmbedding_replicate_zero 59)⟩

/-- C6: against an empty registry (count = 0), both versions of
`checkFaceUniqueness` return the unique verdict (boolean true, status
`unique`) immediately: no fetch, no comparison, no API call, and a best
score of 0. -/
theorem claim_C6_empty_registry_unique :
    (∀ (w : String) (cand : List ℝ) (cur : Option String),
      countZeros (cand.take 100) ≤ 50 →
      UseContractInteraction.checkFaceUniqueness
        { wallet := some w, candidate := cand, currentIpfsHash := cur,
          contractOk := true, registry := [] } =
        .returned { result := true, status := .unique, fetches := 0,
                    comparisons := 0, bestScore := 0 }) ∧
    (∀ (w : String) (cand : List ℝ) (cur : Option String),
      countZeros (cand.take 100) ≤ 50 →
      Part007.checkFaceUniqueness
        { wallet := some w, candidate := cand, currentIpfsHash := cur,
          contractOk := true, countRead := true, entries := [] } =
        { result := true, status := .unique, apiCalls := 0 }) := by
  constructor
  · intro w cand cur hc
    unfold UseContractInteraction.checkFaceUniqueness
    dsimp only
    rw [if_neg (by omega), if_neg (by norm_num), if_pos (by simp)]
  · intro w cand cur hc
    unfold Part007.checkFaceUniqueness
    dsimp only
    rw [if_neg (by omega), if_neg (by norm_num), if_neg (by norm_num), if_pos (by simp)]

/-- Witness for C6 at a concrete input. -/
theorem claim_C6_empty_registry_unique_witness :
    UseContractInteraction.checkFaceUniqueness
      { wallet := some "0xme", candidate := [1], currentIpfsHash := none,
        contractOk := true, registry := [] } =
      .returned { result := true, status := .unique, fetches := 0,
                  comparisons := 0, bestScore := 0 } :=
  claim_C6_empty_registry_unique.1 "0xme" [1] none (by
    rw [List.take_of_length_le (by norm_num)]
    norm_num [countZeros])

/-- C1 counterexample: the backend uniqueness endpoint
`handleFaceVerification` classifies a candidate whose best similarity is
exactly its configured threshold (0.40) as already registered: the
verdict uses an inclusive comparison (`>=`), so a score equal to the
threshold is not treated as unique, contradicting the claim for this
cited implementation. -/
theorem claim_C1_counterexample :
    (BackendServer.bestMatch [{ address := "0xa", ipfsHash := "Qm1" }]
        (fun _ => some (some BackendServer.SIMILARITY_THRESHOLD))).similarity =
      BackendServer.SIMILARITY_THRESHOLD ∧
    BackendServer.isFaceRegistered [{ address := "0xa", ipfsHash := "Qm1" }]
      (fun _ => some (some BackendServer.SIMILARITY_THRESHOLD)) := by
  have hb : BackendServer.bestMatch [{ address := "0xa", ipfsHash := "Qm1" }]
      (fun _ => some (some BackendServer.SIMILARITY_THRESHOLD)) =
      { address := "0xa", similarity := BackendServer.SIMILARITY_THRESHOLD } := by
    unfold BackendServer.bestMatch
    simp only [BackendServer.bestMatchFold]
    rw [if_neg (by decide)]
    dsimp only [Option.getD]
    rw [if_pos (by norm_num [BackendServer.SIMILARITY_THRESHOLD])]
  constructor
  · rw [hb]
  · unfold BackendServer.isFaceRegistered
    rw [hb]

/-- C1 (amended): in the frontend `checkFaceUniqueness` the tie-break is
as claimed -- a similarity exactly equal to `SIMILARITY_THRESHOLD` does
not trigger the duplicate verdict, so a single-entry registry whose
stored embedding scores exactly the threshold yields the unique verdict
with the comparison actually performed; the backend
`handleFaceVerification`, also cited by the claim, instead uses an
inclusive comparison (see the counterexample). -/
theorem claim_C1_amended_threshold_tie_is_unique :
    ∀ (cand stored : List ℝ) (w addr ipfs : String),
      countZeros (cand.take 100) ≤ 50 →
      countZeros (stored.take 100) ≤ 50 →
      ipfs ≠ "" →
      addr.toLower ≠ w.toLower →
      IpfsUtils.calculateCosineSimilarity cand stored =
        .ok UseContractInteraction.SIMILARITY_THRESHOLD →
      UseContractInteraction.checkFaceUniqueness
        { wallet := some w, candidate := cand, currentIpfsHash := none,
          contractOk := true,
          registry := [{ regRead := some { address := addr, ipfsHash := ipfs },
                         fetched := some { embedding := some stored } }] } =
        .returned { result := true, status := .unique, fetches := 1,
                    comparisons := 1,
                    bestScore := UseContractInteraction.SIMILARITY_THRESHOLD } := by
  intro cand stored w addr ipfs hc1 hc2 hipfs haddr hsim
  have hlen : cand.length = stored.length := calc_ok_length hsim
  unfold UseContractInteraction.checkFaceUniqueness
  dsimp only
  rw [if_neg (by omega), if_neg (by norm_num), if_neg (by norm_num)]
  simp only [UseContractInteraction.loop]
  rw [if_neg (by simp [hipfs, haddr])]
  rw [if_neg (by omega)]
  rw [if_neg (fun hh => hh hlen)]
  simp only [hsim]
  rw [if_neg (lt_irrefl _)]
  have hmax : max 0 UseContractInteraction.SIMILARITY_THRESHOLD =
      UseContractInteraction.SIMILARITY_THRESHOLD :=
    max_eq_right (by norm_num [UseContractInteraction.SIMILARITY_THRESHOLD])
  rw [hmax]

/-- Witness for C1 (amended) at concrete inputs: the candidate
`[1,0,0,0]` scores exactly 0.70 against the stored embedding `[7,7,1,1]`
and is classified unique. -/
theorem claim_C1_amended_threshold_tie_is_unique_witness :
    UseContractInteraction.checkFaceUniqueness
      { wallet := some "0xme", candidate := [1, 0, 0, 0], currentIpfsHash := none,
        contractOk := true,
        registry := [{ regRead := some { address := "0xother", ipfsHash := "QmS" },
                       fetched := some { embedding := some [7, 7, 1, 1] } }] } =
      .returned { result := true, status := .unique, fetches := 1,
                  comparisons := 1,
                  bestScore := UseContractInteraction.SIMILARITY_THRESHOLD } :=
  claim_C1_amended_threshold_tie_is_unique [1, 0, 0, 0] [7, 7, 1, 1] "0xme" "0xother" "QmS"
    (by rw [List.take_of_length_le (by norm_num)]; norm_num [countZeros])
    (by rw [List.take_of_length_le (by norm_num)]; norm_num [countZeros])
    (by decide)
    (by simp only [String.toLower, String.map_eq]; decide)
    (by rw [calc_tie_eval]; norm_num [UseContractInteraction.SIMILARITY_THRESHOLD])

/-- Helper: the gateway loop returns none exactly when asked after every
gateway in the list has failed. -/
theorem tryGateways_none {T : Type} (request : String → Option T) (ch : String) :
    ∀ gs : List String, (∀ g ∈ gs, request (g ++ ch) = none) →
      FaceApiServiceV01.tryGateways request ch gs = none := by
  intro gs
  induction gs with
  | nil => intro _; rfl
  | cons g rest ih =>
    intro h
    simp only [FaceApiServiceV01.tryGateways, h g (List.mem_cons_self g rest)]
    exact ih fun g' hg' => h g' (List.mem_cons_of_mem _ hg')

/-- C7 counterexample: `retrieveFromIPFS` -- the store read used by the
main `checkFaceUniqueness` and cited by the claim -- consults only the
single Pinata gateway.  With the Pinata gateway down but the content
served by the second and third configured gateways, it throws instead of
returning the payload: there is no fallback and no second endpoint, while
the multi-gateway loop succeeds on the same outage. -/
theorem claim_C7_counterexample :
    IpfsUtils.retrieveFromIPFS
      (fun url => if url = "https://ipfs.io/ipfs/QmX" ∨
                    url = "https://cloudflare-ipfs.com/ipfs/QmX"
                  then some (42 : ℕ) else none) "QmX" =
      .error "Failed to retrieve from IPFS" ∧
    FaceApiServiceV01.tryGateways
      (fun url => if url = "https://ipfs.io/ipfs/QmX" ∨
                    url = "https://cloudflare-ipfs.com/ipfs/QmX"
                  then some (42 : ℕ) else none) "QmX"
      FaceApiServiceV01.IPFS_GATEWAYS = some 42 := by
  have hpin : (fun url => if url = "https://ipfs.io/ipfs/QmX" ∨
        url = "https://cloudflare-ipfs.com/ipfs/QmX"
      then some (42 : ℕ) else none) ("https://gateway.pinata.cloud/ipfs/" ++ "QmX") =
      none := by decide
  have hio : (fun url => if url = "https://ipfs.io/ipfs/QmX" ∨
        url = "https://cloudflare-ipfs.com/ipfs/QmX"
      then some (42 : ℕ) else none) ("https://ipfs.io/ipfs/" ++ "QmX") =
      some 42 := by decide
  constructor
  · unfold IpfsUtils.retrieveFromIPFS IpfsUtils.PINATA_GATEWAY
    simp only [hpin]
  · unfold FaceApiServiceV01.IPFS_GATEWAYS
    simp only [FaceApiServiceV01.tryGateways, hpin, hio]

/-- C7 (amended): the multi-gateway client `FaceApiService.fetchFromIPFS`
walks the 4 statically configured gateways in order (each request bounded
by the 5000 ms axios timeout), returns the first success -- in particular
it still succeeds when only the third gateway serves the content -- and
returns null (not a thrown `ContentUnavailable`) only after every gateway
has failed; `retrieveFromIPFS`, the read path of the main
`checkFaceUniqueness`, instead consults the single Pinata gateway with no
fallback (see the counterexample). -/
theorem claim_C7_amended_gateway_fallback :
    FaceApiServiceV01.IPFS_GATEWAYS.length = 4 ∧
    FaceApiServiceV01.GATEWAY_TIMEOUT_MS = 5000 ∧
    (∀ (T : Type) (request : String → Option T) (h : String),
      FaceApiServiceV01.fetchFromIPFS request h =
        FaceApiServiceV01.tryGateways request (h.replace "ipfs://" "")
          FaceApiServiceV01.IPFS_GATEWAYS) ∧
    (∀ (T : Type) (request : String → Option T) (ch : String) (payload : T),
      request ("https://gateway.pinata.cloud/ipfs/" ++ ch) = none →
      request ("https://ipfs.io/ipfs/" ++ ch) = none →
      request ("https://cloudflare-ipfs.com/ipfs/" ++ ch) = some payload →
      FaceApiServiceV01.tryGateways request ch FaceApiServiceV01.IPFS_GATEWAYS =
        some payload) ∧
    (∀ (T : Type) (request : String → Option T) (ch : String),
      (∀ g ∈ FaceApiServiceV01.IPFS_GATEWAYS, request (g ++ ch) = none) →
      FaceApiServiceV01.tryGateways request ch FaceApiServiceV01.IPFS_GATEWAYS = none) := by
  refine ⟨rfl, rfl, fun T request h => rfl, ?_, ?_⟩
  · intro T request ch payload h1 h2 h3
    unfold FaceApiServiceV01.IPFS_GATEWAYS
    simp only [FaceApiServiceV01.tryGateways, h1, h2, h3]
  · intro T request ch hall
    exact tryGateways_none request ch _ hall

/-- Witness for C7 (amended): content reachable only on the third gateway
is still fetched. -/
theorem claim_C7_amended_gateway_fallback_witness :
    FaceApiServiceV01.tryGateways
      (fun url => if url = "https://cloudflare-ipfs.com/ipfs/QmY"
                  then some (7 : ℕ) else none) "QmY"
      FaceApiServiceV01.IPFS_GATEWAYS = some 7 :=
  claim_C7_amended_gateway_fallback.2.2.2.1 ℕ
    (fun url => if url = "https://cloudflare-ipfs.com/ipfs/QmY"
                then some (7 : ℕ) else none) "QmY" 7
    (by decide) (by decide) (by decide)

/-- C8 counterexample: in the part_007 coordinator, a run whose
`totalRegistrants()` read fails (a check that did not complete) returns
exactly the same result -- boolean true with status `unique` -- as a
genuine check against an empty registry, so `unique` and
`checked-and-failed` are not distinct states of its result. -/
theorem claim_C8_counterexample :
    Part007.checkFaceUniqueness
      { wallet := some "0xme", candidate := [1], currentIpfsHash := none,
        contractOk := true, countRead := false,
        entries := [{ regRead := some { address := "0xa", ipfsHash := "Qm1" },
                      cmp := some { success := true, similarity := some 1,
                                    error := none } }] } =
      { result := true, status := .unique, apiCalls := 0 } ∧
    Part007.checkFaceUniqueness
      { wallet := some "0xme", candidate := [1], currentIpfsHash := none,
        contractOk := true, countRead := true, entries := [] } =
      { result := true, status := .unique, apiCalls := 0 } := by
  have hcz : countZeros (([1] : List ℝ).take 100) = 0 := by
    rw [List.take_of_length_le (by norm_num)]
    norm_num [countZeros]
  constructor
  · unfold Part007.checkFaceUniqueness
    dsimp only
    rw [if_neg (by rw [hcz]; norm_num), if_neg (by norm_num), if_pos rfl]
  · unfold Part007.checkFaceUniqueness
    dsimp only
    rw [if_neg (by rw [hcz]; norm_num), if_neg (by norm_num), if_neg (by norm_num),
      if_pos (by simp)]

/-- C8 (amended): the part_007 coordinator does keep the invalid-candidate
and error paths distinct from both verdicts -- they return false with
status `error`, the duplicate verdict returns false with status
`duplicate`, and the three statuses are pairwise distinct constructors --
but a failed `totalRegistrants()` read is reported as boolean true with
status `unique`, indistinguishable from a genuine unique verdict (see the
counterexample). -/
theorem claim_C8_amended_status_disambiguation :
    (∀ env : Part007.Env, env.wallet = none →
      Part007.checkFaceUniqueness env =
        { result := false, status := .error, apiCalls := 0 }) ∧
    (∀ (env : Part007.Env) (w : String), env.wallet = some w →
      50 < countZeros (env.candidate.take 100) →
      Part007.checkFaceUniqueness env =
        { result := false, status := .error, apiCalls := 0 }) ∧
    (∀ (env : Part007.Env) (w : String), env.wallet = some w →
      countZeros (env.candidate.take 100) ≤ 50 →
      env.contractOk = false →
      Part007.checkFaceUniqueness env =
        { result := false, status := .error, apiCalls := 0 }) ∧
    (∀ (w ipfs addr : String) (cur : Option String) (c : Part007.CompareOutcome)
        (rest : List Part007.LoopEntry) (k : ℕ),
      ipfs ≠ "" → addr.toLower ≠ w.toLower → cur ≠ some ipfs →
      ¬ (c.success = false ∧ ∃ m, c.error = some m ∧ Part007.ipfsErrorLike m = true) →
      Part007.SIMILARITY_THRESHOLD < c.similarity.getD 0 →
      Part007.loop w cur
          ({ regRead := some { address := addr, ipfsHash := ipfs }, cmp := some c } :: rest)
          k =
        { result := false, status := .duplicate, apiCalls := k + 1 }) ∧
    (UniquenessStatus.error ≠ UniquenessStatus.duplicate ∧
     UniquenessStatus.error ≠ UniquenessStatus.unique ∧
     UniquenessStatus.duplicate ≠ UniquenessStatus.unique) ∧
    (∀ (env : Part007.Env) (w : String), env.wallet = some w →
      countZeros (env.candidate.take 100) ≤ 50 →
      env.contractOk = true → env.countRead = false →
      Part007.checkFaceUniqueness env =
        { result := true, status := .unique, apiCalls := 0 }) := by
  refine ⟨?_, ?_, ?_, ?_, ⟨by simp, by simp, by simp⟩, ?_⟩
  · intro env hw
    unfold Part007.checkFaceUniqueness
    rw [hw]
  · intro env w hw hcrude
    unfold Part007.checkFaceUniqueness
    rw [hw]
    dsimp only
    rw [if_pos hcrude]
  · intro env w hw hcrude hcontract
    unfold Part007.checkFaceUniqueness
    rw [hw]
    dsimp only
    rw [if_neg (by omega), if_pos hcontract]
  · intro w ipfs addr cur c rest k hipfs haddr hcur hnoskip hgt
    simp only [Part007.loop]
    rw [if_neg (by simp [hipfs, haddr, hcur])]
    rw [if_neg hnoskip]
    rw [if_pos hgt]
  · intro env w hw hcrude hcontract hcount
    unfold Part007.checkFaceUniqueness
    rw [hw]
    dsimp only
    rw [if_neg (by omega), if_neg (by rw [hcontract]; norm_num), if_pos hcount]

/-- Witness for C8 (amended) at concrete inputs: a crude-invalid candidate
yields the error result, a failed count read yields the unique result, and
an above-threshold comparison yields the duplicate result. -/
theorem claim_C8_amended_status_disambiguation_witness :
    Part007.checkFaceUniqueness
      { wallet := some "0xme", candidate := List.replicate 60 0, currentIpfsHash := none,
        contractOk := true, countRead := true, entries := [] } =
      { result := false, status := .error, apiCalls := 0 } ∧
    Part007.checkFaceUniqueness
      { wallet := some "0xme", candidate := [1], currentIpfsHash := none,
        contractOk := true, countRead := false, entries := [] } =
      { result := true, status := .unique, apiCalls := 0 } ∧
    Part007.loop "0xme" none
      [{ regRead := some { address := "0xa", ipfsHash := "Qm1" },
         cmp := some { success := true, similarity := some 1, error := none } }] 0 =
      { result := false, status := .duplicate, apiCalls := 1 } :=
  ⟨claim_C8_amended_status_disambiguation.2.1 _ "0xme" rfl (by
      show 50 < countZeros ((List.replicate 60 (0 : ℝ)).take 100)
      rw [List.take_of_length_le (by simp), FaceProcessing.countZeros_replicate_zero]
      norm_num),
   claim_C8_amended_status_disambiguation.2.2.2.2.2 _ "0xme" rfl (by
      show countZeros (([1] : List ℝ).take 100) ≤ 50
      rw [List.take_of_length_le (by norm_num)]
      norm_num [countZeros]) rfl rfl,
   claim_C8_amended_status_disambiguation.2.2.2.1 "0xme" "Qm1" "0xa" none
     { success := true, similarity := some 1, error := none } [] 0
     (by decide)
     (by simp only [String.toLower, String.map_eq]; decide)
     (by simp)
     (by simp)
     (by norm_num [Part007.SIMILARITY_THRESHOLD])⟩

/-- Helper: the first validator check fails on `[0,0]` (all entries are
zero). -/
theorem not_hasMin_zeros : ¬ FaceProcessing.hasMinimumNonZeroValues [(0 : ℝ), 0] := by
  unfold FaceProcessing.hasMinimumNonZeroValues
  norm_num [countZeros]

/-- Helper: the embedding `[0,0]` fails the full validator. -/
theorem not_valid_zeros : ¬ FaceProcessing.isValidEmbedding [(0 : ℝ), 0] := by
  rintro ⟨h1, -, -⟩
  exact not_hasMin_zeros h1

/-- C4 counterexample: the code has no per-check failure reason.  The
embeddings `[1,1]` (first failing check: spread) and `[0,0]` (first
failing check: non-zero count) both surface the single generic message of
`uploadToIPFS`.  Were the claim true, there would be an assignment of
distinct messages to the three checks with the surfaced reason equal to
the first failing check's message; the last conjunct refutes exactly
that. -/
theorem claim_C4_counterexample :
    FaceProcessing.firstFailingCheck [(1 : ℝ), 1] = some .spread ∧
    FaceProcessing.firstFailingCheck [(0 : ℝ), 0] = some .nonZeroCount ∧
    FaceProcessing.validationReason [(1 : ℝ), 1] =
      some FaceProcessing.invalidEmbeddingMessage ∧
    FaceProcessing.validationReason [(0 : ℝ), 0] =
      some FaceProcessing.invalidEmbeddingMessage ∧
    ¬ ∃ msg : FaceProcessing.VCheck → String, Function.Injective msg ∧
        ∀ e : List ℝ, FaceProcessing.validationReason e =
          (FaceProcessing.firstFailingCheck e).map msg := by
  have hff1 : FaceProcessing.firstFailingCheck [(1 : ℝ), 1] = some .spread := by
    unfold FaceProcessing.firstFailingCheck
    rw [if_neg (not_not_intro hasMin_ones), if_pos not_spread_ones]
  have hff0 : FaceProcessing.firstFailingCheck [(0 : ℝ), 0] = some .nonZeroCount := by
    unfold FaceProcessing.firstFailingCheck
    rw [if_pos not_hasMin_zeros]
  have hr1 : FaceProcessing.validationReason [(1 : ℝ), 1] =
      some FaceProcessing.invalidEmbeddingMessage := by
    unfold FaceProcessing.validationReason
    rw [if_neg not_valid_ones]
  have hr0 : FaceProcessing.validationReason [(0 : ℝ), 0] =
      some FaceProcessing.invalidEmbeddingMessage := by
    unfold FaceProcessing.validationReason
    rw [if_neg not_valid_zeros]
  refine ⟨hff1, hff0, hr1, hr0, ?_⟩
  rintro ⟨msg, hinj, hall⟩
  have e1 := hall [1, 1]
  rw [hff1, hr1] at e1
  have e0 := hall [0, 0]
  rw [hff0, hr0] at e0
  simp only [Option.map_some', Option.some.injEq] at e1 e0
  have hmm : msg .spread = msg .nonZeroCount := by rw [← e1, ← e0]
  have := hinj hmm
  exact FaceProcessing.VCheck.noConfusion this

/-- C4 (amended): the validator returns a bare boolean -- true iff the
three checks (non-zero ratio, non-zero spread, non-zero magnitude, all
over the whole vector) pass, proved against an independent spec-side
restatement -- and an all-zero embedding is always rejected.  There is no
per-check reason: the only surfaced failure reason is one fixed generic
message. -/
theorem claim_C4_amended_validator_iff :
    (∀ l : List ℝ, FaceProcessing.isValidEmbedding l ↔ SpecValidator.validSpec l) ∧
    (∀ n : ℕ, ¬ FaceProcessing.isValidEmbedding (List.replicate (n + 1) 0)) ∧
    (∀ l : List ℝ, ¬ FaceProcessing.isValidEmbedding l →
      FaceProcessing.validationReason l = some FaceProcessing.invalidEmbeddingMessage) :=
  ⟨FaceProcessing.isValidEmbedding_iff_validSpec,
   FaceProcessing.not_isValidEmbedding_replicate_zero,
   fun l h => by unfold FaceProcessing.validationReason; rw [if_neg h]⟩

/-- Witness for C4 (amended) at a concrete input. -/
theorem claim_C4_amended_validator_iff_witness :
    FaceProcessing.validationReason [(0 : ℝ)] =
      some FaceProcessing.invalidEmbeddingMessage :=
  claim_C4_amended_validator_iff.2.2 [0] (claim_C4_amended_validator_iff.2.1 0)

/-- C10 counterexample: in `FaceRegistrar` the ZK-proof require precedes
the re-registration guard, so an already-registered caller submitting an
empty proof is reverted with `Invalid ZK proof`, not with
`Already registered` as the claim states. -/
theorem claim_C10_counterexample :
    ((fun a => if a = "0xalice" then
        some ({ wallet := "0xalice", publicKey := "pk", faceHash := "fh",
                ipfsHash := "QmA", timestamp := 1 } : FaceRegistrar.Registration)
      else none) "0xalice").isSome = true ∧
    FaceRegistrar.apply
      { zkVerifier := FaceRegistrar.zkVerifierPlaceholder,
        registrations := fun a => if a = "0xalice" then
          some { wallet := "0xalice", publicKey := "pk", faceHash := "fh",
                 ipfsHash := "QmA", timestamp := 1 } else none,
        registrants := ["0xalice"] }
      (.register "0xalice" "fh" "QmA" "pk" [] 2) =
      .error "Invalid ZK proof" := by
  constructor
  · simp
  · simp only [FaceRegistrar.apply]
    rw [if_pos (by decide)]

/-- C10 (amended): `register` always reverts when the caller already has a
registration -- with `Already registered` in `FaceRegistration`
unconditionally, and in `FaceRegistrar` with `Already registered` whenever
the ZK proof verifies (otherwise `Invalid ZK proof`, see the
counterexample) -- and consequently, in every reachable state of either
contract, no wallet occurs twice in the registrants array, membership in
it coincides with having a stored registration, and a stored Registration
struct survives every operation unchanged. -/
theorem claim_C10_amended_registry_invariants :
    (∀ (s : FaceRegistration.State) (sender faceHash ipfsHash publicKey : String) (now : ℕ),
      (s.registrations sender).isSome →
      FaceRegistration.apply s (.register sender faceHash ipfsHash publicKey now) =
        .error "Already registered") ∧
    (∀ (s : FaceRegistrar.State) (sender faceHash ipfsHash publicKey : String)
        (zkProof : List ℕ) (now : ℕ),
      (s.registrations sender).isSome →
      (∃ m, FaceRegistrar.apply s (.register sender faceHash ipfsHash publicKey zkProof now) =
          .error m) ∧
      (s.zkVerifier zkProof [faceHash] = true →
        FaceRegistrar.apply s (.register sender faceHash ipfsHash publicKey zkProof now) =
          .error "Already registered")) ∧
    (∀ s : FaceRegistration.State, FaceRegistration.Reachable s → FaceRegistration.Inv s) ∧
    (∀ s : FaceRegistrar.State, FaceRegistrar.Reachable s → FaceRegistrar.Inv s) ∧
    (∀ (s s' : FaceRegistration.State) (op : FaceRegistration.Op) (a : String)
        (r : FaceRegistration.Registration),
      FaceRegistration.apply s op = .ok s' → s.registrations a = some r →
      s'.registrations a = some r) ∧
    (∀ (s s' : FaceRegistrar.State) (op : FaceRegistrar.Op) (a : String)
        (r : FaceRegistrar.Registration),
      FaceRegistrar.apply s op = .ok s' → s.registrations a = some r →
      s'.registrations a = some r) := by
  refine ⟨?_, ?_, fun s h => FaceRegistration.reachable_inv h,
    fun s h => FaceRegistrar.reachable_inv_zk h,
    fun s s' op a r h hr => FaceRegistration.registrations_persist h hr,
    fun s s' op a r h hr => FaceRegistrar.registrations_persist_zk h hr⟩
  · intro s sender faceHash ipfsHash publicKey now hsome
    simp only [FaceRegistration.apply]
    rw [if_pos hsome]
  · intro s sender faceHash ipfsHash publicKey zkProof now hsome
    constructor
    · by_cases hzk : s.zkVerifier zkProof [faceHash] = false
      · exact ⟨"Invalid ZK proof", by simp only [FaceRegistrar.apply]; rw [if_pos hzk]⟩
      · exact ⟨"Already registered", by
          simp only [FaceRegistrar.apply]
          rw [if_neg hzk, if_pos hsome]⟩
    · intro htrue
      simp only [FaceRegistrar.apply]
      rw [if_neg (by rw [htrue]; norm_num), if_pos hsome]

/-- Witness for C10 (amended) at concrete inputs. -/
theorem claim_C10_amended_registry_invariants_witness :
    FaceRegistration.apply
      { registrations := fun a => if a = "0xalice" then
          some { wallet := "0xalice", publicKey := "pk", faceHash := "fh",
                 ipfsHash := "QmA", timestamp := 1 } else none,
        registrants := ["0xalice"], merkleRoot := "",
        spentNullifiers := fun _ => false, spendNotes := fun _ => none,
        spendNoteHashes := [] }
      (.register "0xalice" "fh2" "Qm2" "pk2" 5) = .error "Already registered" ∧
    FaceRegistration.Inv FaceRegistration.initialState :=
  ⟨claim_C10_amended_registry_invariants.1 _ "0xalice" "fh2" "Qm2" "pk2" 5 (by simp),
   claim_C10_amended_registry_invariants.2.2.1 _ FaceRegistration.Reachable.init⟩
